import Mathlib

/-
  Shallow embedding of the gemini-cli-openai conformance harness,
  source files: src/test_api.py and src/test_openai_sdk.py.

  The heart of the harness is the SSE streaming loop of
  GeminiAPITester.test_streaming_completion (test_api.py, lines 135-162):
  it iterates over the decoded lines of the HTTP response, skips empty
  lines and lines that do not start with the literal prefix "data: ",
  breaks when the stripped payload equals "[DONE]", parses the payload as
  JSON (a parse failure skips the frame), extracts
  data.get("choices", [dict()])[0].get("delta", dict()).get("content", "")
  and, when that value is truthy, appends it to content_parts and
  increments chunks_received.

  A decoded line is modelled as a List Char, matching the per-character
  semantics of Python str slicing and prefix tests; the Python str
  operations used by the loop (startswith, [6:], strip) are spelled out
  as structural recursions below. The json.loads call is a parameter of
  type List Char to Option Json, since the json module is external
  library code; attribute and index errors raised by the extraction
  chain are an Except error, which escapes the inner try (only
  json.JSONDecodeError is caught there) and is caught by the outer try
  of the test method, failing the scenario.
-/

namespace GeminiCli

/-- JSON values as returned by json.loads. Numbers are modelled as Int,
which is enough for the fields this harness touches. -/
inductive Json where
  | null
  | bool (b : Bool)
  | num (n : Int)
  | str (s : String)
  | arr (elems : List Json)
  | obj (fields : List (String × Json))

/-- Python truthiness of a JSON value: None, False, 0, "", empty list and
empty dict are falsy, everything else is truthy. -/
def Json.truthy : Json → Bool
  | .null => false
  | .bool b => b
  | .num n => n != 0
  | .str s => !s.isEmpty
  | .arr xs => !xs.isEmpty
  | .obj kvs => !kvs.isEmpty

/-- Whether a JSON value is a Python str. -/
def Json.isStr : Json → Bool
  | .str _ => true
  | _ => false

/-- Python line.startswith(pre), character by character. -/
def pyStartsWith : List Char → List Char → Bool
  | _, [] => true
  | [], _ :: _ => false
  | c :: cs, p :: ps => c == p && pyStartsWith cs ps

/-- Python s.strip(): remove leading and trailing whitespace. -/
def pyStrip (s : List Char) : List Char :=
  ((s.dropWhile Char.isWhitespace).reverse.dropWhile Char.isWhitespace).reverse

/-- Python dict.get(key, default): on a dict, the value of the key if
present and the default otherwise; on any non-dict value the attribute
access raises (AttributeError), modelled as an error. -/
def pyGetD : Json → String → Json → Except String Json
  | .obj kvs, key, dflt => .ok ((List.lookup key kvs).getD dflt)
  | _, _, _ => .error "AttributeError"

/-- Python v[0] as used in the extraction chain: first element of a list,
IndexError on an empty list. Subscripting a non-list either raises at
once or yields a value on which the following .get raises, so collapsing
it to an error preserves the behaviour of the composite expression. -/
def pyIndex0 : Json → Except String Json
  | .arr (x :: _) => .ok x
  | .arr [] => .error "IndexError"
  | _ => .error "TypeError"

/-- data.get("choices", [dict()])[0].get("delta", dict()).get("content", "")
from test_api.py line 148. -/
def extractDeltaContent (data : Json) : Except String Json :=
  pyGetD data "choices" (.arr [.obj []]) >>= fun choices =>
  pyIndex0 choices >>= fun first =>
  pyGetD first "delta" (.obj []) >>= fun delta =>
  pyGetD delta "content" (.str "")

/-- The mutable state of the streaming loop: chunks_received and
content_parts (a Python list, so its elements are arbitrary values). -/
structure StreamState where
  chunks_received : Nat
  content_parts : List Json

/-- Outcome of one iteration of the loop body on one line. -/
inductive StepResult where
  | next (s : StreamState)
  | done (s : StreamState)
  | exn

/-- The characters of the SSE prefix "data: ". -/
def dataMarker : List Char := "data: ".data

/-- The characters of the stream terminator sentinel. -/
def doneSentinel : List Char := "[DONE]".data

/-- One iteration of the for-loop body of test_streaming_completion
(test_api.py lines 139-153) on one decoded line: skip falsy (empty)
lines and lines without the "data: " prefix, break on the stripped
sentinel "[DONE]", skip frames whose payload fails to parse as JSON,
and otherwise append a truthy extracted content and count the chunk. -/
def processLine (parse : List Char → Option Json) (s : StreamState)
    (line : List Char) : StepResult :=
  if line = [] then .next s
  else if pyStartsWith line dataMarker then
    if pyStrip (line.drop 6) = doneSentinel then .done s
    else
      match parse (line.drop 6) with
      | none => .next s
      | some data =>
        match extractDeltaContent data with
        | .error _ => .exn
        | .ok c =>
          if c.truthy then .next ⟨s.chunks_received + 1, s.content_parts ++ [c]⟩
          else .next s
  else .next s

/-- Result of running the whole loop: the final state together with
whether the loop was left through the break on "[DONE]" (terminated),
or an uncaught exception. -/
inductive LoopResult where
  | finished (s : StreamState) (terminated : Bool)
  | exn

/-- The for-loop of test_streaming_completion over the list of decoded
lines of the response body. -/
def consumeLines (parse : List Char → Option Json) :
    List (List Char) → StreamState → LoopResult
  | [], s => .finished s false
  | l :: ls, s =>
    match processLine parse s l with
    | .next s2 => consumeLines parse ls s2
    | .done s2 => .finished s2 true
    | .exn => .exn

/-- Python "".join(parts): concatenates a list of strings, raising
TypeError when any element is not a str. -/
def pyJoin : List Json → Except String String
  | [] => .ok ""
  | .str s :: rest => (pyJoin rest).map (fun t => s ++ t)
  | _ :: _ => .error "TypeError"

/-- GeminiAPITester.test_streaming_completion (test_api.py lines 115-165)
abstracted over the response: its status code and the decoded lines of
its body, with json.loads as a parameter. On a 200 response it runs the
loop, joins content_parts, and returns chunks_received greater than 0;
any non-200 status returns False, and any uncaught exception inside the
try block (from the loop body or from the join) is caught by the outer
except and returns False. -/
def test_streaming_completion (status : Nat) (parse : List Char → Option Json)
    (lines : List (List Char)) : Bool :=
  if status = 200 then
    match consumeLines parse lines ⟨0, []⟩ with
    | .finished s _ =>
      match pyJoin s.content_parts with
      | .ok _ => decide (s.chunks_received > 0)
      | .error _ => false
    | .exn => false
  else false

/-- The delta fragments a list of lines contributes, in arrival order:
for each line before the terminator, the extracted content when the line
is a well-formed data frame with truthy content, and nothing otherwise.
The error case is unreachable whenever the loop finishes normally. -/
def fragments (parse : List Char → Option Json) : List (List Char) → List Json
  | [] => []
  | l :: ls =>
    if l = [] then fragments parse ls
    else if pyStartsWith l dataMarker then
      if pyStrip (l.drop 6) = doneSentinel then []
      else
        match parse (l.drop 6) with
        | none => fragments parse ls
        | some data =>
          match extractDeltaContent data with
          | .error _ => []
          | .ok c =>
            if c.truthy then c :: fragments parse ls else fragments parse ls
    else fragments parse ls

/-- The JSON value of one streamed completion chunk carrying one content
fragment, as json.loads would produce it. -/
def chunkJson (c : String) : Json :=
  .obj [("choices", .arr [.obj [("delta", .obj [("content", .str c)])]])]

/-- The serialized JSON payload of one streamed completion chunk. -/
def chunkPayload (c : String) : List Char :=
  "\x7b\"choices\":[\x7b\"delta\":\x7b\"content\":\"".data ++ c.data ++
    "\"\x7d\x7d]\x7d".data

/-- One raw SSE line carrying one streamed completion chunk. -/
def chunkLine (c : String) : List Char :=
  "data: ".data ++ chunkPayload c

/-- json.loads restricted to the concrete payloads used in the concrete
streams below: it returns exactly the value json.loads returns on those
strings, and fails on everything else (as on a malformed frame). -/
def testParse (s : List Char) : Option Json :=
  if s = chunkPayload "Ol" then some (chunkJson "Ol")
  else if s = chunkPayload "á" then some (chunkJson "á")
  else if s = chunkPayload "!" then some (chunkJson "!")
  else none

/-- The example stream of the spec: three chunks "Ol", "á", "!" followed
by the terminator. -/
def exampleLines : List (List Char) :=
  [chunkLine "Ol", chunkLine "á", chunkLine "!", "data: [DONE]".data]

/-- The usage object of an OpenAI SDK chat completion response. -/
structure Usage where
  prompt_tokens : Nat
  completion_tokens : Nat
  total_tokens : Nat

/-- OpenAISDKTester.test_token_usage_info (test_openai_sdk.py lines
198-221) abstracted over the outcome of the SDK call: an exception from
the client is caught and fails the scenario; otherwise usage is read
from the response and the scenario passes exactly when usage is truthy,
that is, present. No field of the usage object is inspected. -/
def test_token_usage_info : Except String (Option Usage) → Bool
  | .error _ => false
  | .ok none => false
  | .ok (some _) => true

/-- GeminiAPITester.test_health_endpoint (test_api.py lines 35-48)
abstracted over the response: none models a raised transport error
(caught, scenario fails); otherwise the pair of the status code and the
result of response.json(), where none models a JSON decoding failure
(raised, caught by the same except, scenario fails). On a 200 response
the code calls data.get("status"), which succeeds on any dict whether or
not the key is present, and raises AttributeError on any non-dict value;
the scenario then returns True. Any non-200 status returns False. -/
def test_health_endpoint : Option (Nat × Option Json) → Bool
  | none => false
  | some (code, body) =>
    if code = 200 then
      match body with
      | some (.obj _) => true
      | _ => false
    else false

/-- The outcome of one scenario body in run_all_tests: each test method
wraps its body in try/except, so a raised exception is modelled as an
error value carrying str(e). -/
def scenarioPass : Except String Bool → Bool
  | .ok b => b
  | .error _ => false

/-- The detail string printed by the except branch of a test method:
print_result(name, False, "Error: " + str(e)). -/
def scenarioDetail : Except String Bool → Option String
  | .ok _ => none
  | .error e => some ("Error: " ++ e)

/-- The outcomes of the eight scenario bodies of
GeminiAPITester.run_all_tests, in catalogue order. -/
structure SuiteOutcomes where
  health : Except String Bool
  root : Except String Bool
  models : Except String Bool
  simple : Except String Bool
  streaming : Except String Bool
  thinking : Except String Bool
  conversation : Except String Bool
  debug : Except String Bool

/-- The results list built by GeminiAPITester.run_all_tests (test_api.py
lines 254-277): every scenario of the fixed catalogue is executed in
order and appended as a pair of its display name and its boolean result,
regardless of the outcomes of the earlier scenarios. -/
def run_all_tests_results (o : SuiteOutcomes) : List (String × Bool) :=
  [("Health Check", scenarioPass o.health),
   ("Root Endpoint", scenarioPass o.root),
   ("Models List", scenarioPass o.models),
   ("Simple Completion", scenarioPass o.simple),
   ("Streaming Completion", scenarioPass o.streaming),
   ("Thinking Mode", scenarioPass o.thinking),
   ("Multi-turn Conversation", scenarioPass o.conversation),
   ("Debug Endpoints", scenarioPass o.debug)]

/-- The verdict computed at the end of run_all_tests (test_api.py lines
281-295): passed = number of successful results, total = number of
results, and the return value is passed == total. -/
def run_all_tests_verdict (results : List (String × Bool)) : Bool :=
  (results.filter (fun r => r.2)).length == results.length

/-- GeminiAPITester.run_all_tests as a whole: build the results list and
return whether every scenario passed. -/
def run_all_tests (o : SuiteOutcomes) : Bool :=
  run_all_tests_verdict (run_all_tests_results o)

/-- How one invocation of main (test_api.py lines 297-314) ends: the
suite ran to completion, or a KeyboardInterrupt fired, or some other
exception escaped run_all_tests. -/
inductive RunOutcome where
  | completed (o : SuiteOutcomes)
  | interrupted
  | errored (msg : String)

/-- The exit code passed to exit() by main: 0 when run_all_tests
returned True, 1 when it returned False, 1 on KeyboardInterrupt and 1 on
any other exception. -/
def mainExitCode : RunOutcome → Nat
  | .completed o => if run_all_tests o then 0 else 1
  | .interrupted => 1
  | .errored _ => 1

/-- The distinct final message printed by main before exiting: the fixed
interrupt message on KeyboardInterrupt, the unexpected-error message on
any other exception, and nothing extra on normal completion. -/
def mainMessage : RunOutcome → Option String
  | .completed _ => none
  | .interrupted => some "⚠️  Testes interrompidos pelo usuário"
  | .errored e => some ("❌ Erro inesperado: " ++ e)

/-- Unfolding the loop one step when the body continues. -/
theorem consumeLines_cons_next (parse : List Char → Option Json)
    (l : List Char) (ls : List (List Char)) (s0 s1 : StreamState)
    (h : processLine parse s0 l = .next s1) :
    consumeLines parse (l :: ls) s0 = consumeLines parse ls s1 := by
  simp [consumeLines, h]

/-- Unfolding the loop one step when the body breaks on the terminator. -/
theorem consumeLines_cons_done (parse : List Char → Option Json)
    (l : List Char) (ls : List (List Char)) (s0 s1 : StreamState)
    (h : processLine parse s0 l = .done s1) :
    consumeLines parse (l :: ls) s0 = .finished s1 true := by
  simp [consumeLines, h]

/-- Unfolding the loop one step when the body raises. -/
theorem consumeLines_cons_exn (parse : List Char → Option Json)
    (l : List Char) (ls : List (List Char)) (s0 : StreamState)
    (h : processLine parse s0 l = .exn) :
    consumeLines parse (l :: ls) s0 = .exn := by
  simp [consumeLines, h]

/-- "".join succeeds exactly when every part is a str. -/
theorem pyJoin_ok_iff (parts : List Json) :
    (∃ t, pyJoin parts = .ok t) ↔ parts.all Json.isStr = true := by
  induction parts with
  | nil => simp [pyJoin]
  | cons p ps ih =>
    cases p with
    | str s =>
      simp only [pyJoin, List.all_cons, Json.isStr, Bool.true_and]
      constructor
      · rintro ⟨t, ht⟩
        cases hp : pyJoin ps with
        | ok u => exact ih.mp ⟨u, hp⟩
        | error e => rw [hp] at ht; simp [Except.map] at ht
      · intro h
        obtain ⟨u, hu⟩ := ih.mpr h
        exact ⟨s ++ u, by rw [hu]; rfl⟩
    | null => simp [pyJoin, Json.isStr]
    | bool b => simp [pyJoin, Json.isStr]
    | num n => simp [pyJoin, Json.isStr]
    | arr xs => simp [pyJoin, Json.isStr]
    | obj kvs => simp [pyJoin, Json.isStr]

/-- The workhorse of the streaming claims: whenever the loop finishes
(through the terminator or through end of input), the final state
extends the initial one by exactly the delta fragments of the consumed
lines, in arrival order, and the chunk counter grows by their number. -/
theorem consumeLines_fragments (parse : List Char → Option Json) :
    ∀ (lines : List (List Char)) (s0 s : StreamState) (term : Bool),
      consumeLines parse lines s0 = .finished s term →
      s.content_parts = s0.content_parts ++ fragments parse lines ∧
      s.chunks_received = s0.chunks_received + (fragments parse lines).length := by
  intro lines
  induction lines with
  | nil =>
    intro s0 s term h
    simp only [consumeLines] at h
    injection h with h1 h2
    subst h1
    simp [fragments]
  | cons l ls ih =>
    intro s0 s term h
    by_cases hl : l = []
    · rw [consumeLines_cons_next parse l ls s0 s0 (by simp [processLine, hl])] at h
      have H := ih s0 s term h
      simpa [fragments, hl] using H
    · by_cases hd : pyStartsWith l dataMarker
      · by_cases hdone : pyStrip (l.drop 6) = doneSentinel
        · rw [consumeLines_cons_done parse l ls s0 s0
              (by simp [processLine, hl, hd, hdone])] at h
          injection h with h1 h2
          subst h1
          simp [fragments, hl, hd, hdone]
        · cases hp : parse (l.drop 6) with
          | none =>
            rw [consumeLines_cons_next parse l ls s0 s0
                (by simp [processLine, hl, hd, hdone, hp])] at h
            have H := ih s0 s term h
            simpa [fragments, hl, hd, hdone, hp] using H
          | some data =>
            cases he : extractDeltaContent data with
            | error e =>
              rw [consumeLines_cons_exn parse l ls s0
                  (by simp [processLine, hl, hd, hdone, hp, he])] at h
              cases h
            | ok c =>
              by_cases ht : c.truthy
              · rw [consumeLines_cons_next parse l ls s0
                    ⟨s0.chunks_received + 1, s0.content_parts ++ [c]⟩
                    (by simp [processLine, hl, hd, hdone, hp, he, ht])] at h
                have H := ih ⟨s0.chunks_received + 1, s0.content_parts ++ [c]⟩ s term h
                constructor
                · rw [H.1]
                  simp [fragments, hl, hd, hdone, hp, he, ht]
                · rw [H.2]
                  simp [fragments, hl, hd, hdone, hp, he, ht]
                  omega
              · rw [consumeLines_cons_next parse l ls s0 s0
                    (by simp [processLine, hl, hd, hdone, hp, he, ht])] at h
                have H := ih s0 s term h
                simpa [fragments, hl, hd, hdone, hp, he, ht] using H
      · rw [consumeLines_cons_next parse l ls s0 s0 (by simp [processLine, hl, hd])] at h
        have H := ih s0 s term h
        simpa [fragments, hl, hd] using H

/-- The verdict of run_all_tests is True exactly when every collected
result is a pass. -/
theorem run_all_tests_verdict_iff (results : List (String × Bool)) :
    run_all_tests_verdict results = true ↔ ∀ r ∈ results, r.2 = true := by
  induction results with
  | nil => simp [run_all_tests_verdict]
  | cons r rs ih =>
    simp only [run_all_tests_verdict, beq_iff_eq] at ih ⊢
    by_cases hr : r.2 = true
    · simp only [List.filter_cons, hr, if_pos, List.length_cons, Nat.add_right_cancel_iff,
        List.mem_cons]
      constructor
      · intro h r2 hr2
        rcases hr2 with rfl | hr2
        · exact hr
        · exact ih.mp h r2 hr2
      · intro h
        exact ih.mpr fun r2 hr2 => h r2 (Or.inr hr2)
    · constructor
      · intro h
        have hle := List.length_filter_le (fun r => r.2) rs
        rw [List.filter_cons] at h
        simp only [hr, if_neg, Bool.false_eq_true, if_false, List.length_cons] at h
        omega
      · intro h
        exact absurd (h r (by simp)) hr

/-- C3: for every finite sequence of input lines consumed by the
streaming loop that finishes, the accumulated content_parts list equals
the fragments list, that is, exactly the non-null, non-empty delta
content values of the well-formed data frames seen before the
terminator, in arrival order, with no reordering, deduplication or
trimming, and chunkCount equals the number of those fragments. -/
theorem accumulated_text_is_ordered_concat (parse : List Char → Option Json)
    (lines : List (List Char)) (s : StreamState) (term : Bool)
    (h : consumeLines parse lines ⟨0, []⟩ = .finished s term) :
    s.content_parts = fragments parse lines ∧
    s.chunks_received = (fragments parse lines).length := by
  have H := consumeLines_fragments parse lines ⟨0, []⟩ s term h
  simpa using H

/-- C3 witness: the three-chunk stream "Ol", "á", "!" followed by
"[DONE]" yields exactly those fragments in order, chunkCount 3,
terminated, and the joined accumulated text "Olá!". -/
theorem accumulated_text_example :
    consumeLines testParse exampleLines ⟨0, []⟩ =
      .finished ⟨3, [.str "Ol", .str "á", .str "!"]⟩ true ∧
    (StreamState.mk 3 [.str "Ol", .str "á", .str "!"]).content_parts =
      fragments testParse exampleLines ∧
    (StreamState.mk 3 [.str "Ol", .str "á", .str "!"]).chunks_received =
      (fragments testParse exampleLines).length ∧
    pyJoin [Json.str "Ol", .str "á", .str "!"] = .ok "Olá!" :=
  ⟨rfl,
   (accumulated_text_is_ordered_concat testParse exampleLines
      ⟨3, [.str "Ol", .str "á", .str "!"]⟩ true rfl).1,
   (accumulated_text_is_ordered_concat testParse exampleLines
      ⟨3, [.str "Ol", .str "á", .str "!"]⟩ true rfl).2,
   rfl⟩

/-- C1 counterexample: a 200 stream that delivers one content chunk and
then closes without the "[DONE]" terminator is scored as passed by
test_streaming_completion, although the loop reports terminated =
false, so passing does not require termination as the claim states. -/
theorem streaming_pass_without_terminator :
    test_streaming_completion 200 testParse [chunkLine "Ol"] = true ∧
    consumeLines testParse [chunkLine "Ol"] ⟨0, []⟩ =
      .finished ⟨1, [.str "Ol"]⟩ false :=
  ⟨rfl, rfl⟩

/-- C1 (amended): the streaming-completion scenario passes exactly when
the response status is 200, the loop finishes without an uncaught
exception, every accumulated part is a string (so the join succeeds)
and chunkCount is positive; whether the "[DONE]" terminator was
observed plays no role in the verdict. -/
theorem streaming_pass_characterization (status : Nat)
    (parse : List Char → Option Json) (lines : List (List Char)) :
    test_streaming_completion status parse lines = true ↔
      (status = 200 ∧
        ∃ s term, consumeLines parse lines ⟨0, []⟩ = .finished s term ∧
          s.content_parts.all Json.isStr = true ∧ 0 < s.chunks_received) := by
  unfold test_streaming_completion
  by_cases hs : status = 200
  · simp only [hs, if_pos, true_and]
    cases hr : consumeLines parse lines ⟨0, []⟩ with
    | finished s term =>
      constructor
      · intro h
        dsimp only at h
        cases hj : pyJoin s.content_parts with
        | ok t =>
          rw [hj] at h
          exact ⟨s, term, rfl, (pyJoin_ok_iff _).mp ⟨t, hj⟩, by simpa using h⟩
        | error e =>
          rw [hj] at h
          cases h
      · rintro ⟨s2, term2, he, hall, hc⟩
        injection he with h1 h2
        subst h1
        obtain ⟨t, ht⟩ := (pyJoin_ok_iff _).mpr hall
        dsimp only
        rw [ht]
        simpa using hc
    | exn => simp
  · simp [hs]

/-- C2 counterexample: a completed response whose usage object violates
the additive equation (total 14 with prompt 10 and completion 5) still
passes test_token_usage_info, because the code only checks that usage
is present. -/
theorem usage_inconsistent_total_passes :
    test_token_usage_info (.ok (some (Usage.mk 10 5 14))) = true ∧
    (Usage.mk 10 5 14).total_tokens ≠
      (Usage.mk 10 5 14).prompt_tokens + (Usage.mk 10 5 14).completion_tokens :=
  ⟨rfl, by decide⟩

/-- C2 (amended): the usage-reporting scenario passes exactly when the
SDK call succeeds and the response carries a usage object; no field of
the usage object is inspected, so additive consistency of total_tokens
is not required. -/
theorem usage_scenario_pass_iff (r : Except String (Option Usage)) :
    test_token_usage_info r = true ↔ ∃ u, r = .ok (some u) := by
  cases r with
  | error e => simp [test_token_usage_info]
  | ok o =>
    cases o with
    | none => simp [test_token_usage_info]
    | some u => simp [test_token_usage_info]

/-- C4: a data line whose payload fails to parse as JSON does not abort
the stream: running the loop on any stream containing such a line is
the same as running it on the stream with the line removed, so the
malformed frame contributes nothing to the accumulated text or the
chunk count and the remaining frames are processed as before, with the
same termination status. -/
theorem malformed_frame_skipped (parse : List Char → Option Json)
    (pre post : List (List Char)) (mal : List Char) (s0 : StreamState)
    (h1 : ¬ mal = []) (h2 : pyStartsWith mal dataMarker = true)
    (h3 : ¬ pyStrip (mal.drop 6) = doneSentinel)
    (h4 : parse (mal.drop 6) = none) :
    consumeLines parse (pre ++ mal :: post) s0 =
      consumeLines parse (pre ++ post) s0 := by
  induction pre generalizing s0 with
  | nil =>
    have hp : processLine parse s0 mal = .next s0 := by
      simp [processLine, h1, h2, h3, h4]
    simpa using consumeLines_cons_next parse mal post s0 s0 hp
  | cons l pre ih =>
    simp only [List.cons_append]
    cases hres : processLine parse s0 l with
    | next s2 =>
      rw [consumeLines_cons_next parse l _ s0 s2 hres,
          consumeLines_cons_next parse l _ s0 s2 hres]
      exact ih s2
    | done s2 =>
      rw [consumeLines_cons_done parse l _ s0 s2 hres,
          consumeLines_cons_done parse l _ s0 s2 hres]
    | exn =>
      rw [consumeLines_cons_exn parse l _ s0 hres,
          consumeLines_cons_exn parse l _ s0 hres]

/-- C4 witness: a non-JSON data line between two valid chunks with a
trailing terminator is skipped, and the remaining frames are
accumulated with terminated = true and chunkCount 2. -/
theorem malformed_frame_skipped_example :
    consumeLines testParse
        ([chunkLine "Ol"] ++
          "data: \x7bnot json".data :: [chunkLine "á", "data: [DONE]".data])
        ⟨0, []⟩ =
      consumeLines testParse
        ([chunkLine "Ol"] ++ [chunkLine "á", "data: [DONE]".data]) ⟨0, []⟩ ∧
    consumeLines testParse
        ([chunkLine "Ol"] ++ [chunkLine "á", "data: [DONE]".data]) ⟨0, []⟩ =
      .finished ⟨2, [.str "Ol", .str "á"]⟩ true :=
  ⟨malformed_frame_skipped testParse [chunkLine "Ol"]
      [chunkLine "á", "data: [DONE]".data] "data: \x7bnot json".data ⟨0, []⟩
      (by decide) (by decide) (by decide) rfl,
   rfl⟩

/-- C5: once a data line whose stripped payload equals "[DONE]" is
reached, the loop breaks: the result of the run does not depend on
anything that follows that line, so no later line can change the
accumulated text or the chunk count. -/
theorem terminator_stops_consumption (parse : List Char → Option Json)
    (pre rest rest2 : List (List Char)) (l : List Char) (s0 : StreamState)
    (h1 : ¬ l = []) (h2 : pyStartsWith l dataMarker = true)
    (h3 : pyStrip (l.drop 6) = doneSentinel) :
    consumeLines parse (pre ++ l :: rest) s0 =
      consumeLines parse (pre ++ l :: rest2) s0 := by
  induction pre generalizing s0 with
  | nil =>
    have hp : processLine parse s0 l = .done s0 := by
      simp [processLine, h1, h2, h3]
    simp only [List.nil_append]
    rw [consumeLines_cons_done parse l rest s0 s0 hp,
        consumeLines_cons_done parse l rest2 s0 s0 hp]
  | cons l2 pre ih =>
    simp only [List.cons_append]
    cases hres : processLine parse s0 l2 with
    | next s2 =>
      rw [consumeLines_cons_next parse l2 _ s0 s2 hres,
          consumeLines_cons_next parse l2 _ s0 s2 hres]
      exact ih s2
    | done s2 =>
      rw [consumeLines_cons_done parse l2 _ s0 s2 hres,
          consumeLines_cons_done parse l2 _ s0 s2 hres]
    | exn =>
      rw [consumeLines_cons_exn parse l2 _ s0 hres,
          consumeLines_cons_exn parse l2 _ s0 hres]

/-- C5 witness: after one chunk and the terminator, a further chunk
line is never consumed; the result is the same as for the stream that
ends at the terminator, namely one chunk with terminated = true. -/
theorem terminator_stops_consumption_example :
    consumeLines testParse
        ([chunkLine "Ol"] ++ "data: [DONE]".data :: [chunkLine "á"]) ⟨0, []⟩ =
      consumeLines testParse
        ([chunkLine "Ol"] ++ "data: [DONE]".data :: []) ⟨0, []⟩ ∧
    consumeLines testParse
        ([chunkLine "Ol"] ++ "data: [DONE]".data :: []) ⟨0, []⟩ =
      .finished ⟨1, [.str "Ol"]⟩ true :=
  ⟨terminator_stops_consumption testParse [chunkLine "Ol"] [chunkLine "á"] []
      "data: [DONE]".data ⟨0, []⟩ (by decide) (by decide) (by decide),
   rfl⟩

/-- C6 counterexample: a 200 response whose JSON body is an object
without a status field still passes test_health_endpoint, because
data.get("status") succeeds on any dict; so the claim that such a
response does not pass is false. -/
theorem health_pass_without_status_field :
    test_health_endpoint (some (200, some (.obj [("ok", .bool true)]))) = true ∧
    List.lookup "status" [("ok", Json.bool true)] = none :=
  ⟨rfl, rfl⟩

/-- C6 (amended): the health scenario passes exactly when the request
does not raise, the status is 200 and the body parses as a JSON object;
presence of a status field in that object is not required (a missing
field is merely reported as None). -/
theorem health_pass_iff (resp : Option (Nat × Option Json)) :
    test_health_endpoint resp = true ↔
      ∃ kvs, resp = some (200, some (.obj kvs)) := by
  cases resp with
  | none => simp [test_health_endpoint]
  | some p =>
    obtain ⟨code, body⟩ := p
    by_cases hc : code = 200
    · subst hc
      cases body with
      | none => simp [test_health_endpoint]
      | some j => cases j <;> simp [test_health_endpoint]
    · simp [test_health_endpoint, hc]

/-- C7: the process exit code is 0 exactly when the run completed and
every scenario in the results list passed; a completed run with any
failed scenario exits 1, and an interrupted run prints the distinct
interrupt message, which no completed run prints, and still exits with
the nonzero code 1. -/
theorem exit_code_contract :
    (∀ ro : RunOutcome, mainExitCode ro = 0 ↔
        ∃ o, ro = .completed o ∧ ∀ r ∈ run_all_tests_results o, r.2 = true) ∧
    mainExitCode .interrupted = 1 ∧
    mainMessage .interrupted = some "⚠️  Testes interrompidos pelo usuário" ∧
    (∀ o, mainMessage (.completed o) = none) := by
  refine ⟨?_, rfl, rfl, fun o => rfl⟩
  intro ro
  cases ro with
  | completed o =>
    have hiff := run_all_tests_verdict_iff (run_all_tests_results o)
    by_cases hv : run_all_tests o = true
    · simp only [mainExitCode, hv, if_pos]
      simp only [run_all_tests] at hv
      constructor
      · intro _
        exact ⟨o, rfl, hiff.mp hv⟩
      · intro _
        trivial
    · simp only [mainExitCode, run_all_tests] at hv ⊢
      rw [if_neg hv]
      constructor
      · intro h
        exact absurd h (by decide)
      · rintro ⟨o2, ho2, hall⟩
        injection ho2 with h1
        subst h1
        exact absurd (hiff.mpr hall) hv
  | interrupted => simp [mainExitCode]
  | errored _ => simp [mainExitCode]

/-- C8: run_all_tests reports a result for every scenario of the fixed
catalogue, in order, whatever the individual outcomes were, so a
failure or an exception in one scenario never prevents the later ones
from being executed and reported; and an exception raised by a
scenario body is converted at that scenario boundary into a failed
result with the human-readable detail string of the except branch. -/
theorem scenario_isolation (o : SuiteOutcomes) :
    (run_all_tests_results o).map Prod.fst =
      ["Health Check", "Root Endpoint", "Models List", "Simple Completion",
       "Streaming Completion", "Thinking Mode", "Multi-turn Conversation",
       "Debug Endpoints"] ∧
    ∀ e : String, scenarioPass (.error e) = false ∧
      scenarioDetail (.error e) = some ("Error: " ++ e) :=
  ⟨rfl, fun _ => ⟨rfl, rfl⟩⟩

/-- C9: the streaming accumulation is deterministic: it is a pure
function of the line sequence, so two runs over the same sequence from
the same initial state produce the same final state, hence identical
accumulated text and chunkCount. -/
theorem accumulation_deterministic (parse : List Char → Option Json)
    (lines lines2 : List (List Char)) (s0 : StreamState)
    (h : lines = lines2) :
    consumeLines parse lines s0 = consumeLines parse lines2 s0 := by
  rw [h]

/-- C9 witness: two runs over the example stream agree, both yielding
three chunks and the terminated state. -/
theorem accumulation_deterministic_example :
    consumeLines testParse exampleLines ⟨0, []⟩ =
      consumeLines testParse exampleLines ⟨0, []⟩ ∧
    consumeLines testParse exampleLines ⟨0, []⟩ =
      .finished ⟨3, [.str "Ol", .str "á", .str "!"]⟩ true :=
  ⟨accumulation_deterministic testParse exampleLines exampleLines ⟨0, []⟩ rfl,
   rfl⟩

/-- C10: a line that is empty or does not start with the literal prefix
"data: " leaves the loop state unchanged: the body returns the state
untouched, neither terminating nor aborting, and consuming the rest of
the stream proceeds as if the line were absent. -/
theorem non_data_lines_inert (parse : List Char → Option Json)
    (s : StreamState) (line : List Char)
    (h : line = [] ∨ pyStartsWith line dataMarker = false) :
    processLine parse s line = .next s ∧
    ∀ rest, consumeLines parse (line :: rest) s = consumeLines parse rest s := by
  have hp : processLine parse s line = .next s := by
    rcases h with h | h
    · simp [processLine, h]
    · by_cases hl : line = []
      · simp [processLine, hl]
      · simp [processLine, hl, h]
  exact ⟨hp, fun rest => consumeLines_cons_next parse line rest s s hp⟩

/-- C10 witness: an SSE event line without the data prefix is inert. -/
theorem non_data_lines_inert_example :
    processLine testParse ⟨0, []⟩ "event: ping".data = .next ⟨0, []⟩ ∧
    consumeLines testParse ["event: ping".data, "data: [DONE]".data] ⟨0, []⟩ =
      consumeLines testParse ["data: [DONE]".data] ⟨0, []⟩ :=
  ⟨(non_data_lines_inert testParse ⟨0, []⟩ "event: ping".data
      (Or.inr (by decide))).1,
   (non_data_lines_inert testParse ⟨0, []⟩ "event: ping".data
      (Or.inr (by decide))).2 ["data: [DONE]".data]⟩

end GeminiCli
